import Mathlib

/-!
Verification of the reminder-scheduling subsystem of the bookmarks backend
(`backend/bookmarks.py`, `backend/tasks.py`, `backend/notifications.py`).

Timestamps are modelled as `Int` seconds since the Unix epoch (UTC); Python
`timedelta` durations become second counts.  The external Cloud Tasks queue is
modelled as the `Finset String` of live task names (the queue dedups on name),
and the Firestore bookmarks subcollection of one user as an association list
from document id to bookmark record.  External outcomes that the code observes
only through exceptions (transient create/delete failures, notification
delivery counts) are supplied by an `Env` record.
-/

/-- Interval policy of `calculate_next_reminder` (bookmarks.py): the
`intervals` dict with `.get(interval, timedelta(days=1))` default, in
seconds. -/
def durationFor (interval : String) : Int :=
  if interval = "3s" then 3
  else if interval = "1d" then 86400
  else if interval = "3d" then 3 * 86400
  else if interval = "1w" then 7 * 86400
  else if interval = "1m" then 30 * 86400
  else 86400

/-- `calculate_next_reminder` (bookmarks.py): `now + intervals.get(interval,
timedelta(days=1))`. -/
def calculateNextReminder (now : Int) (interval : String) : Int :=
  now + durationFor interval

/-- Deterministic task id `f"reminder-{user_id[:8]}-{bookmark_id}"` used by
both `schedule_bookmark_reminder` and `delete_bookmark_reminder` (tasks.py).
The constant queue-path segment `{queue_path}/tasks/` that every operation
prepends identically is omitted. -/
def taskId (userId bookmarkId : String) : String :=
  "reminder-" ++ userId.take 8 ++ "-" ++ bookmarkId

/-- Outcomes of the external collaborators that the Python code observes only
via exceptions or response fields: whether Cloud Tasks is configured
(`is_enabled`), whether a create/delete call fails for a reason other than
ALREADY_EXISTS/NOT_FOUND, and the per-user `success_count` reported by the
notification delivery service. -/
structure Env where
  tasksEnabled : Bool
  createFails : Bool
  deleteFails : Bool
  successCount : String → Nat

/-- `TasksService.schedule_bookmark_reminder`'s external call (tasks.py
lines 119-132) against the queue modelled as a set of live names: a fresh
name is inserted and returned; a duplicate name raises ALREADY_EXISTS, which
the code swallows, returning the reconstructed (identical) name; any other
failure returns `None`. -/
def createTaskS (env : Env) (name : String) (ts : Finset String) :
    Option String × Finset String :=
  if env.tasksEnabled = false then (none, ts)
  else if env.createFails then (none, ts)
  else if name ∈ ts then (some name, ts)
  else (some name, insert name ts)

/-- `TasksService.delete_task` (tasks.py lines 135-160): disabled or empty
name returns `False`; a live name is removed returning `True`; NOT_FOUND is
swallowed returning `True`; any other failure returns `False`. -/
def deleteTaskS (env : Env) (name : String) (ts : Finset String) :
    Bool × Finset String :=
  if env.tasksEnabled = false then (false, ts)
  else if name = "" then (false, ts)
  else if env.deleteFails then (false, ts)
  else if name ∈ ts then (true, ts.erase name)
  else (true, ts)

/-- `TasksService.schedule_bookmark_reminder` entry (tasks.py): no-op when
disabled, otherwise creates under the deterministic name. -/
def scheduleBookmarkReminderS (env : Env) (uid bid : String)
    (ts : Finset String) : Option String × Finset String :=
  if env.tasksEnabled = false then (none, ts)
  else createTaskS env (taskId uid bid) ts

/-- `TasksService.delete_bookmark_reminder` (tasks.py lines 163-183):
reconstructs the deterministic name and delegates to `delete_task`. -/
def deleteBookmarkReminderS (env : Env) (uid bid : String)
    (ts : Finset String) : Bool × Finset String :=
  if env.tasksEnabled = false then (false, ts)
  else deleteTaskS env (taskId uid bid) ts

/-- A bookmark document as stored under `/users/{uid}/bookmarks/` (field set
of `bookmark_data` in `create_bookmark`). -/
structure Bookmark where
  url : String
  title : String
  description : String
  favicon : String
  reminderInterval : String
  nextReminderAt : Int
  isRead : Bool
  createdAt : Int
  updatedAt : Int
deriving DecidableEq

/-- One user's bookmarks subcollection: association list from document id to
document (Firestore ids are unique within a collection). -/
abbrev Store := List (String × Bookmark)

/-- Firestore document update-in-place by id. -/
def storeSet (bid : String) (b : Bookmark) (st : Store) : Store :=
  st.map (fun p => if p.1 = bid then (p.1, b) else p)

/-- Firestore document delete by id. -/
def storeRemove (bid : String) (st : Store) : Store :=
  st.filter (fun p => p.1 != bid)

/-- Combined state the bookmark routes act on: one user's document store plus
the set of live Cloud Tasks names. -/
structure SysState where
  store : Store
  tasks : Finset String
deriving DecidableEq

/-- `BookmarkUpdate` request body (bookmarks.py): both fields optional. -/
structure BookmarkUpdate where
  is_read : Option Bool
  reminder_interval : Option String
deriving DecidableEq

/-- `update_bookmark` route (bookmarks.py lines 305-359): 404 when the
document is missing; otherwise the read-mark branch deletes the pending task,
the interval branch recomputes `nextReminderAt` and replaces the task
(delete then schedule under the same name), and the merged document is
written back and returned. -/
def updateBookmark (env : Env) (now : Int) (uid bid : String)
    (upd : BookmarkUpdate) (s : SysState) : Except Nat Bookmark × SysState :=
  match s.store.lookup bid with
  | none => (Except.error 404, s)
  | some doc =>
    let tasks1 :=
      match upd.is_read with
      | some true =>
        if env.tasksEnabled then (deleteBookmarkReminderS env uid bid s.tasks).2
        else s.tasks
      | _ => s.tasks
    let tasks2 :=
      match upd.reminder_interval with
      | some _ =>
        if env.tasksEnabled then
          (scheduleBookmarkReminderS env uid bid
            (deleteBookmarkReminderS env uid bid tasks1).2).2
        else tasks1
      | none => tasks1
    let doc1 : Bookmark :=
      { doc with
        updatedAt := now
        isRead := upd.is_read.getD doc.isRead
        reminderInterval := upd.reminder_interval.getD doc.reminderInterval
        nextReminderAt :=
          (upd.reminder_interval.map (calculateNextReminder now)).getD
            doc.nextReminderAt }
    (Except.ok doc1, { store := storeSet bid doc1 s.store, tasks := tasks2 })

/-- `delete_bookmark` route (bookmarks.py lines 362-382): 404 when missing;
otherwise deletes the pending reminder task (when enabled) and the
document. -/
def deleteBookmark (env : Env) (uid bid : String) (s : SysState) :
    Except Nat Unit × SysState :=
  match s.store.lookup bid with
  | none => (Except.error 404, s)
  | some _ =>
    let tasks1 :=
      if env.tasksEnabled then (deleteBookmarkReminderS env uid bid s.tasks).2
      else s.tasks
    (Except.ok (), { store := storeRemove bid s.store, tasks := tasks1 })

/-- `create_bookmark` route (bookmarks.py lines 207-263): the fetched
metadata and the Firestore-assigned document id are inputs; the document is
added unread with `nextReminderAt = calculate_next_reminder(interval)` and a
reminder task is scheduled when Cloud Tasks is enabled.  The route has no
failure path. -/
def createBookmark (env : Env) (now : Int) (uid bid : String)
    (url title description favicon interval : String) (s : SysState) :
    Bookmark × SysState :=
  let b : Bookmark :=
    { url := url, title := title, description := description
      favicon := favicon, reminderInterval := interval
      nextReminderAt := calculateNextReminder now interval
      isRead := false, createdAt := now, updatedAt := now }
  let tasks1 :=
    if env.tasksEnabled then (scheduleBookmarkReminderS env uid bid s.tasks).2
    else s.tasks
  (b, { store := s.store ++ [(bid, b)], tasks := tasks1 })

/-- A notification handed to the delivery collaborator
(`firebase.send_to_user`): target user, title, body and the `count` data
field. -/
structure SentNotification where
  uid : String
  title : String
  body : String
  count : Nat
deriving DecidableEq

/-- One user document together with its bookmarks subcollection, as the sweep
iterates them. -/
structure UserRec where
  uid : String
  bookmarks : List (String × Bookmark)
deriving DecidableEq

/-- The sweep's Firestore query filter (notifications.py lines 209-216):
`isRead == False` and `nextReminderAt <= now`. -/
def isDue (now : Int) (b : Bookmark) : Bool :=
  !b.isRead && decide (b.nextReminderAt ≤ now)

/-- The sweep's own re-arm table (notifications.py lines 256-262): the
`intervals` dict in whole days with `.get(interval, 1)` default.  Note it has
no entry for the test tag `"3s"`. -/
def sweepDays (interval : String) : Int :=
  if interval = "1d" then 1
  else if interval = "3d" then 3
  else if interval = "1w" then 7
  else if interval = "1m" then 30
  else 1

/-- `datetime.now(utc).replace(hour=9, minute=0, second=0, microsecond=0)`
(notifications.py lines 263-265) on epoch seconds: the current UTC day at
09:00. -/
def normalizeNine (now : Int) : Int :=
  now - now % 86400 + 9 * 3600

/-- The sweep's per-bookmark update (notifications.py lines 254-274):
`nextReminderAt := 09:00 of the current day + days` from the sweep table. -/
def sweepRearm (now : Int) (b : Bookmark) : Bookmark :=
  { b with nextReminderAt := normalizeNine now + 86400 * sweepDays b.reminderInterval }

/-- Effect of the sweep's update loop on one user's subcollection: every due
bookmark is re-armed, every other document is untouched (document ids are
unique, so updating the due ones by id is a pointwise map). -/
def sweepUserBookmarks (now : Int) (bs : List (String × Bookmark)) :
    List (String × Bookmark) :=
  bs.map (fun p => if isDue now p.2 then (p.1, sweepRearm now p.2) else p)

/-- The notification `send_due_reminders` composes for one user
(notifications.py lines 230-248): skipped when nothing is due, singular
wording referencing the first due bookmark's title for exactly one, aggregate
"N links" wording otherwise. -/
def composeNote (now : Int) (u : UserRec) : Option SentNotification :=
  match u.bookmarks.filter (fun p => isDue now p.2) with
  | [] => none
  | d :: ds =>
    some (match ds with
      | [] => ⟨u.uid, "Time to read!", "Check out: " ++ d.2.title, 1⟩
      | _ => ⟨u.uid, "You have " ++ toString (d :: ds).length ++ " links to read!",
              "Open LinkMind to see your saved links", (d :: ds).length⟩)

/-- Result of a sweep run: the two returned counts, the notifications handed
to the delivery collaborator, and the updated user documents. -/
structure SweepOut where
  usersNotified : Nat
  bookmarksReminded : Nat
  notifs : List SentNotification
  users : List UserRec

/-- `send_due_reminders` (notifications.py lines 182-284): per user, query
the due unread bookmarks, skip the user when none, otherwise compose one
notification (singular or aggregate), deliver it, count the user as notified
when at least one device was reached, and re-arm every due bookmark. -/
def sendDueReminders (env : Env) (now : Int) : List UserRec → SweepOut
  | [] => ⟨0, 0, [], []⟩
  | u :: rest =>
    let rem := sendDueReminders env now rest
    match u.bookmarks.filter (fun p => isDue now p.2) with
    | [] => ⟨rem.usersNotified, rem.bookmarksReminded, rem.notifs, u :: rem.users⟩
    | d :: ds =>
      let note : SentNotification :=
        match ds with
        | [] => ⟨u.uid, "Time to read!", "Check out: " ++ d.2.title, 1⟩
        | _ => ⟨u.uid, "You have " ++ toString (d :: ds).length ++ " links to read!",
                "Open LinkMind to see your saved links", (d :: ds).length⟩
      ⟨(if 0 < env.successCount u.uid then 1 else 0) + rem.usersNotified,
       (d :: ds).length + rem.bookmarksReminded,
       note :: rem.notifs,
       { u with bookmarks := sweepUserBookmarks now u.bookmarks } :: rem.users⟩

/-- What the sweep does to one user document: untouched when nothing is due,
otherwise every due bookmark re-armed. -/
def sweepUserApply (now : Int) (u : UserRec) : UserRec :=
  match u.bookmarks.filter (fun p => isDue now p.2) with
  | [] => u
  | _ :: _ => { u with bookmarks := sweepUserBookmarks now u.bookmarks }

/-- Outcome of the reminder fire-callback. -/
inductive FireOutcome
  | sent
  | skipped
  | notFound
deriving DecidableEq

/-- Modelled from the spec: the fire-callback endpoint
`/notifications/send-bookmark-reminder` targeted by the Cloud Tasks created
in tasks.py is not present under the backend sources; per spec §6 it accepts
`{userId, bookmarkId}`, and per spec §8 it returns a "skipped" outcome and
sends no notification when the bookmark is already read, and a "not found"
outcome without raising and with no side effect when the bookmark no longer
exists; otherwise it delivers the reminder notification. -/
def sendBookmarkReminderCallback (uid bid : String) (s : SysState) :
    FireOutcome × List SentNotification × SysState :=
  match s.store.lookup bid with
  | none => (FireOutcome.notFound, [], s)
  | some b =>
    if b.isRead then (FireOutcome.skipped, [], s)
    else (FireOutcome.sent, [⟨uid, "Time to read!", "Check out: " ++ b.title, 1⟩], s)

/-- `needle` occurs as a contiguous substring of `hay`. -/
def substrAppears (needle hay : String) : Prop :=
  ∃ p q, hay = p ++ (needle ++ q)

lemma taskId_ne_empty (u b : String) : taskId u b ≠ "" := by
  intro h
  have h2 := congrArg String.length h
  simp [taskId, String.length_append] at h2
  exact (by decide : ¬ (("reminder-" : String).length = 0)) h2.1.1.1

lemma string_append_cancel_left {p b1 b2 : String} (h : p ++ b1 = p ++ b2) :
    b1 = b2 := by
  have hd := congrArg String.data h
  rw [String.data_append, String.data_append] at hd
  have h2 := List.append_cancel_left hd
  cases b1; cases b2; exact congrArg String.mk h2

lemma mem_createTaskS (env : Env) (name : String) (ts : Finset String)
    (hen : env.tasksEnabled = true) (hcf : env.createFails = false) :
    name ∈ (createTaskS env name ts).2 := by
  unfold createTaskS
  by_cases h : name ∈ ts <;> simp [hen, hcf, h]

lemma filter_name_card_le (a : String) (ts : Finset String) :
    (ts.filter (fun n => n = a)).card ≤ 1 := by
  rw [Finset.filter_eq']
  split <;> simp

lemma filter_name_card_of_mem (a : String) (ts : Finset String) (h : a ∈ ts) :
    (ts.filter (fun n => n = a)).card = 1 := by
  rw [Finset.filter_eq', if_pos h, Finset.card_singleton]

/-- Claim C5: the interval policy is total: for every valid tag the computed
next fire time exceeds `now` by exactly the tag's duration (3s by 3 seconds,
1d by 1 day, 3d by 3 days, 1w by 1 week, 1m by 30 days), and every
unrecognized tag yields `now` plus the 1-day duration, never an error. -/
theorem claim_C5 (now : Int) (i : String) (h3s : i ≠ "3s") (h1d : i ≠ "1d")
    (h3d : i ≠ "3d") (h1w : i ≠ "1w") (h1m : i ≠ "1m") :
    calculateNextReminder now "3s" - now = 3 ∧
    calculateNextReminder now "1d" - now = 86400 ∧
    calculateNextReminder now "3d" - now = 3 * 86400 ∧
    calculateNextReminder now "1w" - now = 7 * 86400 ∧
    calculateNextReminder now "1m" - now = 30 * 86400 ∧
    calculateNextReminder now i - now = 86400 := by
  refine ⟨?_, ?_, ?_, ?_, ?_, ?_⟩
  · rw [calculateNextReminder, show durationFor "3s" = 3 from rfl]; omega
  · rw [calculateNextReminder, show durationFor "1d" = 86400 from rfl]; omega
  · rw [calculateNextReminder, show durationFor "3d" = 3 * 86400 from rfl]; omega
  · rw [calculateNextReminder, show durationFor "1w" = 7 * 86400 from rfl]; omega
  · rw [calculateNextReminder, show durationFor "1m" = 30 * 86400 from rfl]; omega
  · simp only [calculateNextReminder, durationFor, if_neg h3s, if_neg h1d,
      if_neg h3d, if_neg h1w, if_neg h1m]
    omega

theorem claim_C5_witness :
    ("2w" : String) ≠ "3s" ∧ ("2w" : String) ≠ "1d" ∧ ("2w" : String) ≠ "3d" ∧
    ("2w" : String) ≠ "1w" ∧ ("2w" : String) ≠ "1m" ∧
    (calculateNextReminder 0 "3s" - 0 = 3 ∧
     calculateNextReminder 0 "1d" - 0 = 86400 ∧
     calculateNextReminder 0 "3d" - 0 = 3 * 86400 ∧
     calculateNextReminder 0 "1w" - 0 = 7 * 86400 ∧
     calculateNextReminder 0 "1m" - 0 = 30 * 86400 ∧
     calculateNextReminder 0 "2w" - 0 = 86400) :=
  ⟨by decide, by decide, by decide, by decide, by decide,
   claim_C5 0 "2w" (by decide) (by decide) (by decide) (by decide) (by decide)⟩

/-- Claim C6 (amended): the task naming scheme is deterministic, and with the
same userId differing bookmarkIds yield different names; but the userId is
distinguished only up to its first 8 characters, so two userIds sharing their
first 8 characters yield the identical name for the same bookmark. -/
theorem claim_C6 (u u1 u2 b b1 b2 : String) (hb : b1 ≠ b2)
    (hu : u1.take 8 = u2.take 8) :
    taskId u b = taskId u b ∧
    taskId u b1 ≠ taskId u b2 ∧
    taskId u1 b = taskId u2 b := by
  refine ⟨rfl, ?_, ?_⟩
  · intro h
    exact hb (string_append_cancel_left h)
  · unfold taskId
    rw [hu]

theorem claim_C6_witness :
    ("b1" : String) ≠ "b2" ∧
    ("user1234AAAA" : String).take 8 = ("user1234BBBB" : String).take 8 ∧
    (taskId "u" "b" = taskId "u" "b" ∧
     taskId "u" "b1" ≠ taskId "u" "b2" ∧
     taskId "user1234AAAA" "b" = taskId "user1234BBBB" "b") :=
  ⟨by decide, by decide,
   claim_C6 "u" "user1234AAAA" "user1234BBBB" "b" "b1" "b2" (by decide) (by decide)⟩

/-- Claim C6 counterexample: two distinct userIds whose first 8 characters
agree produce the identical task name for the same bookmarkId, refuting "for
every two distinct (userId, bookmarkId) pairs the resulting names differ". -/
theorem claim_C6_counterexample :
    taskId "user1234AAAA" "b1" = taskId "user1234BBBB" "b1" ∧
    ("user1234AAAA" : String) ≠ "user1234BBBB" := by
  constructor
  · rfl
  · decide

/-- Claim C4: the scheduler gateway is idempotent on conflicts: with the
service enabled, schedule returns the task name both when newly created and
when the queue already holds the name (ALREADY_EXISTS), cancel returns `true`
both when the name is live (deleted) and when it is absent (NOT_FOUND), and
any other external failure yields `none` / `false` without raising. -/
theorem claim_C4 (env : Env) (name : String) (ts : Finset String)
    (hen : env.tasksEnabled = true) (hname : name ≠ "") :
    (env.createFails = false → name ∉ ts → (createTaskS env name ts).1 = some name) ∧
    (env.createFails = false → name ∈ ts → (createTaskS env name ts).1 = some name) ∧
    (env.createFails = true → (createTaskS env name ts).1 = none) ∧
    (env.deleteFails = false → name ∈ ts → (deleteTaskS env name ts).1 = true) ∧
    (env.deleteFails = false → name ∉ ts → (deleteTaskS env name ts).1 = true) ∧
    (env.deleteFails = true → (deleteTaskS env name ts).1 = false) := by
  unfold createTaskS deleteTaskS
  refine ⟨?_, ?_, ?_, ?_, ?_, ?_⟩
  · intro hc hm; simp [hen, hname, hc, hm]
  · intro hc hm; simp [hen, hname, hc, hm]
  · intro hc; simp [hen, hname, hc]
  · intro hd hm; simp [hen, hname, hd, hm]
  · intro hd hm; simp [hen, hname, hd, hm]
  · intro hd; simp [hen, hname, hd]

/-- Fully operational environment: Cloud Tasks configured, no transient
external failures, every notification reaches one device. -/
def envAll : Env := ⟨true, false, false, fun _ => 1⟩

/-- An unread bookmark with a 1-day interval, past due at any `now ≥ 0`. -/
def bmDue : Bookmark :=
  ⟨"https://example.com", "Foo", "", "", "1d", 0, false, 0, 0⟩

/-- An unread past-due bookmark carrying the test interval tag `"3s"`. -/
def bm3s : Bookmark :=
  ⟨"https://example.com", "Bar", "", "", "3s", 0, false, 0, 0⟩

theorem claim_C4_witness :
    envAll.tasksEnabled = true ∧ ("n" : String) ≠ "" ∧
    ((envAll.createFails = false → ("n" : String) ∉ (∅ : Finset String) →
        (createTaskS envAll "n" ∅).1 = some "n") ∧
     (envAll.createFails = false → ("n" : String) ∈ (∅ : Finset String) →
        (createTaskS envAll "n" ∅).1 = some "n") ∧
     (envAll.createFails = true → (createTaskS envAll "n" ∅).1 = none) ∧
     (envAll.deleteFails = false → ("n" : String) ∈ (∅ : Finset String) →
        (deleteTaskS envAll "n" ∅).1 = true) ∧
     (envAll.deleteFails = false → ("n" : String) ∉ (∅ : Finset String) →
        (deleteTaskS envAll "n" ∅).1 = true) ∧
     (envAll.deleteFails = true → (deleteTaskS envAll "n" ∅).1 = false)) :=
  ⟨rfl, by decide, claim_C4 envAll "n" ∅ rfl (by decide)⟩

/-- Claim C9: the fire-callback endpoint returns a "skipped" outcome and
sends no notification when the bookmark is already read, and a "not found"
outcome with no side effect when the bookmark id no longer exists
(spec-modelled: the endpoint itself is absent from the backend sources). -/
theorem claim_C9 (uid bid : String) (s : SysState) (b : Bookmark)
    (hb : s.store.lookup bid = some b) (hread : b.isRead = true) :
    sendBookmarkReminderCallback uid bid s = (FireOutcome.skipped, [], s) ∧
    ∀ s2 : SysState, s2.store.lookup bid = none →
      sendBookmarkReminderCallback uid bid s2 = (FireOutcome.notFound, [], s2) := by
  constructor
  · simp [sendBookmarkReminderCallback, hb, hread]
  · intro s2 h2
    simp [sendBookmarkReminderCallback, h2]

theorem claim_C9_witness :
    (SysState.mk [("b1", { bmDue with isRead := true })] ∅).store.lookup "b1" =
      some { bmDue with isRead := true } ∧
    ({ bmDue with isRead := true }).isRead = true ∧
    (sendBookmarkReminderCallback "u1" "b1"
        (SysState.mk [("b1", { bmDue with isRead := true })] ∅) =
      (FireOutcome.skipped, [], SysState.mk [("b1", { bmDue with isRead := true })] ∅) ∧
     ∀ s2 : SysState, s2.store.lookup "b1" = none →
       sendBookmarkReminderCallback "u1" "b1" s2 = (FireOutcome.notFound, [], s2)) :=
  ⟨by decide, by decide,
   claim_C9 "u1" "b1" (SysState.mk [("b1", { bmDue with isRead := true })] ∅)
     { bmDue with isRead := true } (by decide) (by decide)⟩

/-- Claim C10: every bookmark swept by the due-reminder sweep gets a
`nextReminderAt` strictly in the future: the normalized 09:00 compute instant
is strictly less than 24 hours before `now`, the sweep table adds at least
one day, and so the persisted value strictly exceeds `now`. -/
theorem claim_C10 (now : Int) (b : Bookmark) (_hdue : isDue now b = true) :
    now - normalizeNine now < 86400 ∧
    1 ≤ sweepDays b.reminderInterval ∧
    now < (sweepRearm now b).nextReminderAt := by
  have h3 : 1 ≤ sweepDays b.reminderInterval := by
    unfold sweepDays
    split_ifs <;> norm_num
  refine ⟨?_, h3, ?_⟩
  · unfold normalizeNine
    omega
  · show now < normalizeNine now + 86400 * sweepDays b.reminderInterval
    unfold normalizeNine
    generalize sweepDays b.reminderInterval = d at h3
    omega

theorem claim_C10_witness :
    isDue 3600 bmDue = true ∧
    (3600 - normalizeNine 3600 < 86400 ∧
     1 ≤ sweepDays bmDue.reminderInterval ∧
     3600 < (sweepRearm 3600 bmDue).nextReminderAt) :=
  ⟨by decide, claim_C10 3600 bmDue (by decide)⟩

lemma lookup_storeSet (bid : String) (b : Bookmark) (st : Store) (doc : Bookmark)
    (h : st.lookup bid = some doc) : (storeSet bid b st).lookup bid = some b := by
  induction st with
  | nil => simp [List.lookup] at h
  | cons p rest ih =>
    obtain ⟨k, v⟩ := p
    by_cases hp : k = bid
    · subst hp
      have hset : storeSet k b ((k, v) :: rest) = (k, b) :: storeSet k b rest := by
        simp [storeSet]
      rw [hset]
      simp [List.lookup]
    · have hbk : (bid == k) = false := by
        simp only [beq_eq_false_iff_ne, ne_eq]
        exact fun hh => hp hh.symm
      have h2 : rest.lookup bid = some doc := by
        simpa [List.lookup, hbk] using h
      have hset : storeSet bid b ((k, v) :: rest) = (k, v) :: storeSet bid b rest := by
        simp [storeSet, hp]
      rw [hset]
      have ih2 := ih h2
      simpa [List.lookup, hbk, storeSet] using ih2

/-- Claim C1: with the scheduler enabled and the external create call not
failing, changing an unread bookmark's reminder interval cancels the
deterministic task name and then schedules under that same name; afterwards
the task set holds that name, exactly one live task matches it, and (queue
invariant) at most one live task can ever match it. -/
theorem claim_C1 (env : Env) (now : Int) (uid bid i : String) (s : SysState)
    (doc : Bookmark) (hen : env.tasksEnabled = true)
    (hcf : env.createFails = false) (hdoc : s.store.lookup bid = some doc)
    (_hunread : doc.isRead = false) :
    (updateBookmark env now uid bid ⟨none, some i⟩ s).1 =
      Except.ok { doc with
                  updatedAt := now
                  reminderInterval := i
                  nextReminderAt := calculateNextReminder now i } ∧
    (updateBookmark env now uid bid ⟨none, some i⟩ s).2.tasks =
      (scheduleBookmarkReminderS env uid bid
        (deleteBookmarkReminderS env uid bid s.tasks).2).2 ∧
    taskId uid bid ∈ (updateBookmark env now uid bid ⟨none, some i⟩ s).2.tasks ∧
    ((updateBookmark env now uid bid ⟨none, some i⟩ s).2.tasks.filter
        (fun n => n = taskId uid bid)).card = 1 ∧
    ∀ ts : Finset String, (ts.filter (fun n => n = taskId uid bid)).card ≤ 1 := by
  have hmem : taskId uid bid ∈
      (scheduleBookmarkReminderS env uid bid
        (deleteBookmarkReminderS env uid bid s.tasks).2).2 := by
    unfold scheduleBookmarkReminderS
    rw [hen]
    simp only [Bool.true_eq_false, if_false]
    exact mem_createTaskS env (taskId uid bid) _ hen hcf
  have htasks : (updateBookmark env now uid bid ⟨none, some i⟩ s).2.tasks =
      (scheduleBookmarkReminderS env uid bid
        (deleteBookmarkReminderS env uid bid s.tasks).2).2 := by
    simp [updateBookmark, hdoc, hen]
  refine ⟨?_, htasks, ?_, ?_, fun ts => filter_name_card_le _ ts⟩
  · simp [updateBookmark, hdoc]
  · rw [htasks]; exact hmem
  · rw [htasks]; exact filter_name_card_of_mem _ _ hmem

theorem claim_C1_witness :
    envAll.tasksEnabled = true ∧ envAll.createFails = false ∧
    (SysState.mk [("b1", bmDue)] ∅).store.lookup "b1" = some bmDue ∧
    bmDue.isRead = false ∧
    ((updateBookmark envAll 7 "user1" "b1" ⟨none, some "1w"⟩
        (SysState.mk [("b1", bmDue)] ∅)).1 =
      Except.ok { bmDue with
                  updatedAt := 7
                  reminderInterval := "1w"
                  nextReminderAt := calculateNextReminder 7 "1w" } ∧
     (updateBookmark envAll 7 "user1" "b1" ⟨none, some "1w"⟩
        (SysState.mk [("b1", bmDue)] ∅)).2.tasks =
      (scheduleBookmarkReminderS envAll "user1" "b1"
        (deleteBookmarkReminderS envAll "user1" "b1" (∅ : Finset String)).2).2 ∧
     taskId "user1" "b1" ∈ (updateBookmark envAll 7 "user1" "b1" ⟨none, some "1w"⟩
        (SysState.mk [("b1", bmDue)] ∅)).2.tasks ∧
     ((updateBookmark envAll 7 "user1" "b1" ⟨none, some "1w"⟩
        (SysState.mk [("b1", bmDue)] ∅)).2.tasks.filter
          (fun n => n = taskId "user1" "b1")).card = 1 ∧
     ∀ ts : Finset String, (ts.filter (fun n => n = taskId "user1" "b1")).card ≤ 1) :=
  ⟨rfl, rfl, by decide, by decide,
   claim_C1 envAll 7 "user1" "b1" "1w" (SysState.mk [("b1", bmDue)] ∅) bmDue
     rfl rfl (by decide) (by decide)⟩

lemma deleteBookmarkReminderS_tasks (env : Env) (uid bid : String)
    (ts : Finset String) (hen : env.tasksEnabled = true)
    (hdf : env.deleteFails = false) :
    (deleteBookmarkReminderS env uid bid ts).2 = ts.erase (taskId uid bid) := by
  by_cases hm : taskId uid bid ∈ ts
  · simp [deleteBookmarkReminderS, deleteTaskS, hen, hdf, taskId_ne_empty uid bid, hm]
  · simp [deleteBookmarkReminderS, deleteTaskS, hen, hdf, taskId_ne_empty uid bid, hm,
      Finset.erase_eq_of_not_mem hm]

/-- Claim C2 (amended): for an update that marks a bookmark read and does not
change its interval, with the scheduler enabled and the external delete not
failing, the controller cancels the deterministic task name and schedules no
new task, and a subsequent duplicate read-mark succeeds as a no-op (same
document result, task set unchanged), not an error.  (An update that also
changes the interval does reschedule; see the counterexample.) -/
theorem claim_C2 (env : Env) (now : Int) (uid bid : String) (s : SysState)
    (doc : Bookmark) (hen : env.tasksEnabled = true)
    (hdf : env.deleteFails = false) (hdoc : s.store.lookup bid = some doc) :
    (updateBookmark env now uid bid ⟨some true, none⟩ s).1 =
      Except.ok { doc with updatedAt := now, isRead := true } ∧
    (updateBookmark env now uid bid ⟨some true, none⟩ s).2.tasks =
      s.tasks.erase (taskId uid bid) ∧
    taskId uid bid ∉ (updateBookmark env now uid bid ⟨some true, none⟩ s).2.tasks ∧
    (updateBookmark env now uid bid ⟨some true, none⟩
        (updateBookmark env now uid bid ⟨some true, none⟩ s).2).1 =
      Except.ok { doc with updatedAt := now, isRead := true } ∧
    (updateBookmark env now uid bid ⟨some true, none⟩
        (updateBookmark env now uid bid ⟨some true, none⟩ s).2).2.tasks =
      (updateBookmark env now uid bid ⟨some true, none⟩ s).2.tasks := by
  have hdel := deleteBookmarkReminderS_tasks env uid bid s.tasks hen hdf
  have h1 : updateBookmark env now uid bid ⟨some true, none⟩ s =
      (Except.ok { doc with updatedAt := now, isRead := true },
       { store := storeSet bid { doc with updatedAt := now, isRead := true } s.store
         tasks := s.tasks.erase (taskId uid bid) }) := by
    simp [updateBookmark, hdoc, hen, hdel]
  have hlook2 : (storeSet bid { doc with updatedAt := now, isRead := true }
      s.store).lookup bid = some { doc with updatedAt := now, isRead := true } :=
    lookup_storeSet bid _ s.store doc hdoc
  have hdel2 := deleteBookmarkReminderS_tasks env uid bid
    (s.tasks.erase (taskId uid bid)) hen hdf
  have h2 : updateBookmark env now uid bid ⟨some true, none⟩
      (SysState.mk (storeSet bid { doc with updatedAt := now, isRead := true } s.store)
        (s.tasks.erase (taskId uid bid))) =
      (Except.ok { doc with updatedAt := now, isRead := true },
       { store := storeSet bid { doc with updatedAt := now, isRead := true }
           (storeSet bid { doc with updatedAt := now, isRead := true } s.store)
         tasks := s.tasks.erase (taskId uid bid) }) := by
    simp [updateBookmark, hlook2, hen, hdel2, Finset.erase_idem]
  refine ⟨by rw [h1], by rw [h1], ?_, ?_, ?_⟩
  · rw [h1]
    exact Finset.not_mem_erase _ _
  · rw [h1]
    rw [h2]
  · rw [h1]
    rw [h2]

theorem claim_C2_witness :
    envAll.tasksEnabled = true ∧ envAll.deleteFails = false ∧
    (SysState.mk [("b1", bmDue)] {taskId "user1" "b1"}).store.lookup "b1" =
      some bmDue ∧
    ((updateBookmark envAll 5 "user1" "b1" ⟨some true, none⟩
        (SysState.mk [("b1", bmDue)] {taskId "user1" "b1"})).1 =
      Except.ok { bmDue with updatedAt := 5, isRead := true } ∧
     (updateBookmark envAll 5 "user1" "b1" ⟨some true, none⟩
        (SysState.mk [("b1", bmDue)] {taskId "user1" "b1"})).2.tasks =
      ({taskId "user1" "b1"} : Finset String).erase (taskId "user1" "b1") ∧
     taskId "user1" "b1" ∉ (updateBookmark envAll 5 "user1" "b1" ⟨some true, none⟩
        (SysState.mk [("b1", bmDue)] {taskId "user1" "b1"})).2.tasks ∧
     (updateBookmark envAll 5 "user1" "b1" ⟨some true, none⟩
        (updateBookmark envAll 5 "user1" "b1" ⟨some true, none⟩
          (SysState.mk [("b1", bmDue)] {taskId "user1" "b1"})).2).1 =
      Except.ok { bmDue with updatedAt := 5, isRead := true } ∧
     (updateBookmark envAll 5 "user1" "b1" ⟨some true, none⟩
        (updateBookmark envAll 5 "user1" "b1" ⟨some true, none⟩
          (SysState.mk [("b1", bmDue)] {taskId "user1" "b1"})).2).2.tasks =
      (updateBookmark envAll 5 "user1" "b1" ⟨some true, none⟩
        (SysState.mk [("b1", bmDue)] {taskId "user1" "b1"})).2.tasks) :=
  ⟨rfl, rfl, by decide,
   claim_C2 envAll 5 "user1" "b1"
     (SysState.mk [("b1", bmDue)] {taskId "user1" "b1"}) bmDue rfl rfl (by decide)⟩

/-- Claim C2 counterexample: an update event that marks the bookmark read and
simultaneously changes the reminder interval does schedule a new task: from
an empty queue, the post-state queue holds the deterministic task name, so
"cancels ... and schedules no new task" fails for such updates. -/
theorem claim_C2_counterexample :
    (SysState.mk [("b1", bmDue)] ∅).tasks = (∅ : Finset String) ∧
    taskId "user1" "b1" ∈ (updateBookmark envAll 5 "user1" "b1"
      ⟨some true, some "1d"⟩ (SysState.mk [("b1", bmDue)] ∅)).2.tasks := by
  constructor
  · rfl
  · decide

/-- Claim C8: a missing bookmark id on update or delete is the only failure:
the request errors with 404 and the whole state (document store and task set)
is untouched; and for every pair of external environments — in particular one
where scheduling/cancellation succeed and one where they fail — the request
outcome and the resulting document store of create, update and delete are
identical, so reminder-side failures never fail a bookmark CRUD request. -/
theorem claim_C8 (env env2 : Env) (now : Int)
    (uid bid newBid url title description favicon interval : String)
    (upd : BookmarkUpdate) (s : SysState) :
    ((updateBookmark env now uid bid upd s).1 = Except.error 404 ↔
      s.store.lookup bid = none) ∧
    (s.store.lookup bid = none →
      updateBookmark env now uid bid upd s = (Except.error 404, s)) ∧
    ((deleteBookmark env uid bid s).1 = Except.error 404 ↔
      s.store.lookup bid = none) ∧
    (s.store.lookup bid = none →
      deleteBookmark env uid bid s = (Except.error 404, s)) ∧
    (updateBookmark env now uid bid upd s).1 =
      (updateBookmark env2 now uid bid upd s).1 ∧
    (updateBookmark env now uid bid upd s).2.store =
      (updateBookmark env2 now uid bid upd s).2.store ∧
    (deleteBookmark env uid bid s).1 = (deleteBookmark env2 uid bid s).1 ∧
    (deleteBookmark env uid bid s).2.store =
      (deleteBookmark env2 uid bid s).2.store ∧
    (createBookmark env now uid newBid url title description favicon interval s).1 =
      (createBookmark env2 now uid newBid url title description favicon interval s).1 ∧
    (createBookmark env now uid newBid url title description favicon interval s).2.store =
      (createBookmark env2 now uid newBid url title description favicon interval s).2.store := by
  cases h : s.store.lookup bid with
  | none =>
    refine ⟨?_, ?_, ?_, ?_, ?_, ?_, ?_, ?_, ?_, ?_⟩ <;>
      simp [updateBookmark, deleteBookmark, createBookmark, h]
  | some doc =>
    refine ⟨?_, ?_, ?_, ?_, ?_, ?_, ?_, ?_, ?_, ?_⟩ <;>
      simp [updateBookmark, deleteBookmark, createBookmark, h]

theorem claim_C8_witness :
    ((updateBookmark envAll 5 "u1" "missing" ⟨some true, none⟩
        (SysState.mk [("b1", bmDue)] ∅)).1 = Except.error 404 ↔
      (SysState.mk [("b1", bmDue)] ∅).store.lookup "missing" = none) ∧
    ((SysState.mk [("b1", bmDue)] ∅).store.lookup "missing" = none →
      updateBookmark envAll 5 "u1" "missing" ⟨some true, none⟩
        (SysState.mk [("b1", bmDue)] ∅) =
        (Except.error 404, SysState.mk [("b1", bmDue)] ∅)) ∧
    ((deleteBookmark envAll "u1" "missing" (SysState.mk [("b1", bmDue)] ∅)).1 =
        Except.error 404 ↔
      (SysState.mk [("b1", bmDue)] ∅).store.lookup "missing" = none) ∧
    ((SysState.mk [("b1", bmDue)] ∅).store.lookup "missing" = none →
      deleteBookmark envAll "u1" "missing" (SysState.mk [("b1", bmDue)] ∅) =
        (Except.error 404, SysState.mk [("b1", bmDue)] ∅)) ∧
    (updateBookmark envAll 5 "u1" "missing" ⟨some true, none⟩
        (SysState.mk [("b1", bmDue)] ∅)).1 =
      (updateBookmark (Env.mk false true true fun _ => 0) 5 "u1" "missing"
        ⟨some true, none⟩ (SysState.mk [("b1", bmDue)] ∅)).1 ∧
    (updateBookmark envAll 5 "u1" "missing" ⟨some true, none⟩
        (SysState.mk [("b1", bmDue)] ∅)).2.store =
      (updateBookmark (Env.mk false true true fun _ => 0) 5 "u1" "missing"
        ⟨some true, none⟩ (SysState.mk [("b1", bmDue)] ∅)).2.store ∧
    (deleteBookmark envAll "u1" "missing" (SysState.mk [("b1", bmDue)] ∅)).1 =
      (deleteBookmark (Env.mk false true true fun _ => 0) "u1" "missing"
        (SysState.mk [("b1", bmDue)] ∅)).1 ∧
    (deleteBookmark envAll "u1" "missing" (SysState.mk [("b1", bmDue)] ∅)).2.store =
      (deleteBookmark (Env.mk false true true fun _ => 0) "u1" "missing"
        (SysState.mk [("b1", bmDue)] ∅)).2.store ∧
    (createBookmark envAll 5 "u1" "b2" "https://e.com" "T" "" "" "1d"
        (SysState.mk [("b1", bmDue)] ∅)).1 =
      (createBookmark (Env.mk false true true fun _ => 0) 5 "u1" "b2"
        "https://e.com" "T" "" "" "1d" (SysState.mk [("b1", bmDue)] ∅)).1 ∧
    (createBookmark envAll 5 "u1" "b2" "https://e.com" "T" "" "" "1d"
        (SysState.mk [("b1", bmDue)] ∅)).2.store =
      (createBookmark (Env.mk false true true fun _ => 0) 5 "u1" "b2"
        "https://e.com" "T" "" "" "1d" (SysState.mk [("b1", bmDue)] ∅)).2.store :=
  claim_C8 envAll (Env.mk false true true fun _ => 0) 5 "u1" "missing" "b2"
    "https://e.com" "T" "" "" "1d" ⟨some true, none⟩ (SysState.mk [("b1", bmDue)] ∅)

lemma sendDueReminders_users (env : Env) (now : Int) (users : List UserRec) :
    (sendDueReminders env now users).users = users.map (sweepUserApply now) := by
  induction users with
  | nil => rfl
  | cons u rest ih =>
    simp only [sendDueReminders, List.map_cons]
    cases h : u.bookmarks.filter (fun p => isDue now p.2) with
    | nil => simp [h, sweepUserApply, ih]
    | cons d ds => simp [h, sweepUserApply, ih]

lemma sendDueReminders_notifs (env : Env) (now : Int) (users : List UserRec) :
    (sendDueReminders env now users).notifs = users.filterMap (composeNote now) := by
  induction users with
  | nil => rfl
  | cons u rest ih =>
    simp only [sendDueReminders, List.filterMap_cons]
    cases h : u.bookmarks.filter (fun p => isDue now p.2) with
    | nil => simp [h, composeNote, ih]
    | cons d ds =>
      cases ds with
      | nil => simp [h, composeNote, ih]
      | cons e es => simp [h, composeNote, ih]

lemma composeNote_uid (now : Int) (u : UserRec) (n : SentNotification)
    (h : composeNote now u = some n) : n.uid = u.uid := by
  unfold composeNote at h
  cases hf : u.bookmarks.filter (fun p => isDue now p.2) with
  | nil => rw [hf] at h; simp at h
  | cons d ds =>
    rw [hf] at h
    cases ds with
    | nil =>
      simp only [Option.some_inj] at h
      rw [← h]
    | cons e es =>
      simp only [Option.some_inj] at h
      rw [← h]

lemma filter_uid_filterMap_nil (now : Int) (uid : String) (users : List UserRec)
    (h : uid ∉ users.map UserRec.uid) :
    (users.filterMap (composeNote now)).filter (fun n => n.uid == uid) = [] := by
  induction users with
  | nil => rfl
  | cons u rest ih =>
    simp only [List.map_cons, List.mem_cons] at h
    push_neg at h
    obtain ⟨h1, h2⟩ := h
    rw [List.filterMap_cons]
    cases hc : composeNote now u with
    | none => exact ih h2
    | some n =>
      have hn := composeNote_uid now u n hc
      have hne : (n.uid == uid) = false := by
        simp only [beq_eq_false_iff_ne, ne_eq, hn]
        exact fun hh => h1 hh.symm
      simp [List.filter_cons, hne, ih h2]

lemma filter_uid_filterMap (now : Int) (users : List UserRec) (u : UserRec)
    (hnd : (users.map UserRec.uid).Nodup) (hu : u ∈ users) :
    (users.filterMap (composeNote now)).filter (fun n => n.uid == u.uid) =
      (composeNote now u).toList := by
  induction users with
  | nil => cases hu
  | cons v rest ih =>
    rw [List.map_cons, List.nodup_cons] at hnd
    obtain ⟨hv, hrest⟩ := hnd
    rw [List.filterMap_cons]
    rcases List.mem_cons.mp hu with rfl | hmem
    · cases hc : composeNote now u with
      | none =>
        simpa [hc] using filter_uid_filterMap_nil now u.uid rest hv
      | some n =>
        have hn := composeNote_uid now u n hc
        have hq : (n.uid == u.uid) = true := by simp [hn]
        simp [List.filter_cons, hq, filter_uid_filterMap_nil now u.uid rest hv]
    · have hu2 : u.uid ∈ rest.map UserRec.uid := List.mem_map_of_mem _ hmem
      have hvu : v.uid ≠ u.uid := fun hh => hv (hh ▸ hu2)
      cases hc : composeNote now v with
      | none => exact ih hrest hmem
      | some n =>
        have hn := composeNote_uid now v n hc
        have hne : (n.uid == u.uid) = false := by
          simp only [beq_eq_false_iff_ne, ne_eq, hn]
          exact hvu
        simp [List.filter_cons, hne, ih hrest hmem]

/-- Claim C7: the due-reminder sweep sends at most one notification per user
per sweep call; users with no due unread bookmarks are skipped entirely; a
user with exactly one due unread bookmark receives the singular-wording
notification whose body contains that bookmark's title; a user with N >= 2
due unread bookmarks receives a single aggregate notification whose title
contains "N links". -/
theorem claim_C7 (env : Env) (now : Int) (users : List UserRec) (u : UserRec)
    (hnd : (users.map UserRec.uid).Nodup) (hu : u ∈ users) :
    ((sendDueReminders env now users).notifs.filter
      (fun n => n.uid == u.uid)).length ≤ 1 ∧
    (u.bookmarks.filter (fun p => isDue now p.2) = [] →
      (sendDueReminders env now users).notifs.filter (fun n => n.uid == u.uid) = []) ∧
    (∀ bid b, u.bookmarks.filter (fun p => isDue now p.2) = [(bid, b)] →
      (sendDueReminders env now users).notifs.filter (fun n => n.uid == u.uid) =
        [⟨u.uid, "Time to read!", "Check out: " ++ b.title, 1⟩] ∧
      substrAppears b.title ("Check out: " ++ b.title)) ∧
    (∀ d ds, u.bookmarks.filter (fun p => isDue now p.2) = d :: ds → ds ≠ [] →
      (sendDueReminders env now users).notifs.filter (fun n => n.uid == u.uid) =
        [⟨u.uid, "You have " ++ toString (d :: ds).length ++ " links to read!",
          "Open LinkMind to see your saved links", (d :: ds).length⟩] ∧
      substrAppears (toString (d :: ds).length ++ " links")
        ("You have " ++ toString (d :: ds).length ++ " links to read!")) := by
  have hkey : (sendDueReminders env now users).notifs.filter
      (fun n => n.uid == u.uid) = (composeNote now u).toList := by
    rw [sendDueReminders_notifs]
    exact filter_uid_filterMap now users u hnd hu
  refine ⟨?_, ?_, ?_, ?_⟩
  · rw [hkey]
    cases composeNote now u <;> simp
  · intro h
    rw [hkey]
    simp [composeNote, h]
  · intro bid b h
    have hc : composeNote now u =
        some ⟨u.uid, "Time to read!", "Check out: " ++ b.title, 1⟩ := by
      simp [composeNote, h]
    refine ⟨by rw [hkey, hc]; rfl, ?_⟩
    exact ⟨"Check out: ", "", by simp⟩
  · intro d ds h hne
    have hc : composeNote now u =
        some ⟨u.uid, "You have " ++ toString (d :: ds).length ++ " links to read!",
              "Open LinkMind to see your saved links", (d :: ds).length⟩ := by
      cases ds with
      | nil => exact absurd rfl hne
      | cons e es => simp [composeNote, h]
    refine ⟨by rw [hkey, hc]; rfl, ?_⟩
    refine ⟨"You have ", " to read!", ?_⟩
    rw [String.append_assoc, String.append_assoc]
    rfl

theorem claim_C7_witness :
    (([UserRec.mk "u1" [("b1", bmDue)]].map UserRec.uid).Nodup) ∧
    UserRec.mk "u1" [("b1", bmDue)] ∈ [UserRec.mk "u1" [("b1", bmDue)]] ∧
    (((sendDueReminders envAll 100 [UserRec.mk "u1" [("b1", bmDue)]]).notifs.filter
        (fun n => n.uid == (UserRec.mk "u1" [("b1", bmDue)]).uid)).length ≤ 1 ∧
     ((UserRec.mk "u1" [("b1", bmDue)]).bookmarks.filter
          (fun p => isDue 100 p.2) = [] →
        (sendDueReminders envAll 100 [UserRec.mk "u1" [("b1", bmDue)]]).notifs.filter
          (fun n => n.uid == (UserRec.mk "u1" [("b1", bmDue)]).uid) = []) ∧
     (∀ bid b, (UserRec.mk "u1" [("b1", bmDue)]).bookmarks.filter
          (fun p => isDue 100 p.2) = [(bid, b)] →
        (sendDueReminders envAll 100 [UserRec.mk "u1" [("b1", bmDue)]]).notifs.filter
          (fun n => n.uid == (UserRec.mk "u1" [("b1", bmDue)]).uid) =
          [⟨(UserRec.mk "u1" [("b1", bmDue)]).uid, "Time to read!",
            "Check out: " ++ b.title, 1⟩] ∧
        substrAppears b.title ("Check out: " ++ b.title)) ∧
     (∀ d ds, (UserRec.mk "u1" [("b1", bmDue)]).bookmarks.filter
          (fun p => isDue 100 p.2) = d :: ds → ds ≠ [] →
        (sendDueReminders envAll 100 [UserRec.mk "u1" [("b1", bmDue)]]).notifs.filter
          (fun n => n.uid == (UserRec.mk "u1" [("b1", bmDue)]).uid) =
          [⟨(UserRec.mk "u1" [("b1", bmDue)]).uid,
            "You have " ++ toString (d :: ds).length ++ " links to read!",
            "Open LinkMind to see your saved links", (d :: ds).length⟩] ∧
        substrAppears (toString (d :: ds).length ++ " links")
          ("You have " ++ toString (d :: ds).length ++ " links to read!"))) :=
  ⟨by decide, by decide,
   claim_C7 envAll 100 [UserRec.mk "u1" [("b1", bmDue)]]
     (UserRec.mk "u1" [("b1", bmDue)]) (by decide) (by decide)⟩

/-- Claim C3 (amended): for every bookmark swept by the due-reminder sweep,
the new persisted `nextReminderAt` equals the sweep's own day-granularity
table (1d to 1 day, 3d to 3 days, 1w to 7 days, 1m to 30 days, any other tag
including the test tag 3s to 1 day) added to the normalized compute instant
(the current day at 09:00); bookmarks that are read or not yet due are not
modified by the sweep. -/
theorem claim_C3 (env : Env) (now : Int) (users : List UserRec) (u : UserRec)
    (bid : String) (b : Bookmark) (hu : u ∈ users)
    (hb : (bid, b) ∈ u.bookmarks) :
    sweepUserApply now u ∈ (sendDueReminders env now users).users ∧
    (sweepUserApply now u).uid = u.uid ∧
    (isDue now b = false → (bid, b) ∈ (sweepUserApply now u).bookmarks) ∧
    (isDue now b = true →
      (bid, { b with nextReminderAt :=
          normalizeNine now + 86400 * sweepDays b.reminderInterval })
        ∈ (sweepUserApply now u).bookmarks) := by
  refine ⟨?_, ?_, ?_, ?_⟩
  · rw [sendDueReminders_users]
    exact List.mem_map_of_mem _ hu
  · unfold sweepUserApply
    cases h : u.bookmarks.filter (fun p => isDue now p.2) <;> rfl
  · intro hfalse
    unfold sweepUserApply
    cases h : u.bookmarks.filter (fun p => isDue now p.2) with
    | nil => exact hb
    | cons d ds =>
      have h2 := List.mem_map_of_mem
        (fun p : String × Bookmark =>
          if isDue now p.2 then (p.1, sweepRearm now p.2) else p) hb
      simpa [sweepUserBookmarks, hfalse] using h2
  · intro htrue
    have hmemf : (bid, b) ∈ u.bookmarks.filter (fun p => isDue now p.2) :=
      List.mem_filter.mpr ⟨hb, htrue⟩
    unfold sweepUserApply
    cases h : u.bookmarks.filter (fun p => isDue now p.2) with
    | nil =>
      rw [h] at hmemf
      cases hmemf
    | cons d ds =>
      have h2 := List.mem_map_of_mem
        (fun p : String × Bookmark =>
          if isDue now p.2 then (p.1, sweepRearm now p.2) else p) hb
      simpa [sweepUserBookmarks, sweepRearm, htrue] using h2

theorem claim_C3_witness :
    UserRec.mk "u1" [("b1", bmDue)] ∈ [UserRec.mk "u1" [("b1", bmDue)]] ∧
    ("b1", bmDue) ∈ (UserRec.mk "u1" [("b1", bmDue)]).bookmarks ∧
    (sweepUserApply 100 (UserRec.mk "u1" [("b1", bmDue)]) ∈
      (sendDueReminders envAll 100 [UserRec.mk "u1" [("b1", bmDue)]]).users ∧
     (sweepUserApply 100 (UserRec.mk "u1" [("b1", bmDue)])).uid =
      (UserRec.mk "u1" [("b1", bmDue)]).uid ∧
     (isDue 100 bmDue = false →
      ("b1", bmDue) ∈ (sweepUserApply 100 (UserRec.mk "u1" [("b1", bmDue)])).bookmarks) ∧
     (isDue 100 bmDue = true →
      ("b1", { bmDue with
               nextReminderAt :=
                 normalizeNine 100 + 86400 * sweepDays bmDue.reminderInterval })
        ∈ (sweepUserApply 100 (UserRec.mk "u1" [("b1", bmDue)])).bookmarks)) :=
  ⟨by decide, by decide,
   claim_C3 envAll 100 [UserRec.mk "u1" [("b1", bmDue)]]
     (UserRec.mk "u1" [("b1", bmDue)]) "b1" bmDue (by decide) (by decide)⟩

/-- Claim C3 counterexample: a swept unread past-due bookmark with the test
interval tag "3s" is re-armed to the normalized 09:00 instant plus one day
(8758800 for now = 8683200, i.e. day 100 at noon), not to the normalized
instant plus `duration_for("3s") = 3` seconds as the interval policy of §4.1
would dictate: the sweep's own table has no "3s" entry. -/
theorem claim_C3_counterexample :
    (sendDueReminders envAll 8683200 [UserRec.mk "u1" [("b1", bm3s)]]).users =
      [UserRec.mk "u1" [("b1", { bm3s with nextReminderAt := 8758800 })]] ∧
    (8758800 : Int) ≠ normalizeNine 8683200 + durationFor "3s" := by
  constructor
  · decide
  · decide
